import Mathlib

/-!
# QueryNLP — shallow embedding and verification

A shallow embedding of the core of the QueryNLP repository
(`db_manager.py`, `chat_app.py`) in Lean 4, with theorems settling the
spec claims about the write-rejection gate, row truncation, the
connection lifecycle and the chart-configuration builder.

Python dynamic values appearing in database rows are modelled by `PyVal`;
machine floats are modelled by `Rat` (the claims under verification only
involve exact decimal values); fallible Python code is modelled with
`Except`, mutation of `self` by explicit state passing.
-/

set_option maxRecDepth 4000

/-- Decidable equality for `Except`, so that concrete runs of the
embedded functions can be checked by `decide`. -/
instance {ε α : Type} [DecidableEq ε] [DecidableEq α] : DecidableEq (Except ε α) := fun a b =>
  match a, b with
  | .error e, .error e' => decidable_of_iff (e = e') (by simp)
  | .ok v, .ok v' => decidable_of_iff (v = v') (by simp)
  | .error _, .ok _ => isFalse (by simp)
  | .ok _, .error _ => isFalse (by simp)

/-- A SQL scalar value as held in a Python result row: `None`, `int`,
`float` (modelled exactly as a rational) or `str`. -/
inductive PyVal where
  | vNone : PyVal
  | vInt (n : Int) : PyVal
  | vFloat (q : Rat) : PyVal
  | vStr (s : String) : PyVal
deriving DecidableEq, Repr

/-- Python whitespace for `str.strip()` / `str.split()` (ASCII range). -/
def isPySpace (c : Char) : Bool :=
  c = ' ' || c = '\t' || c = '\n' || c = '\r' || c = '\x0b' || c = '\x0c'

/-- Python `str.strip()`: drop leading and trailing whitespace. -/
def pyStrip (s : String) : String :=
  String.mk (((s.data.dropWhile isPySpace).reverse.dropWhile isPySpace).reverse)

/-- Python `str.upper()` (ASCII case mapping, which covers SQL keywords). -/
def pyUpper (s : String) : String :=
  String.mk (s.data.map Char.toUpper)

/-- Python `str.lower()` (ASCII case mapping). -/
def pyLower (s : String) : String :=
  String.mk (s.data.map Char.toLower)

/-- Worker for `pySplitWs`: walk the characters, accumulating the current
token in reverse; whitespace flushes the (non-empty) token. -/
def splitWsAux : List Char → List Char → List String
  | [], acc => if acc = [] then [] else [String.mk acc.reverse]
  | c :: t, acc =>
    if isPySpace c then
      (if acc = [] then [] else [String.mk acc.reverse]) ++ splitWsAux t []
    else
      splitWsAux t (c :: acc)

/-- Python `str.split()` with no argument: split on runs of whitespace,
discarding empty pieces. -/
def pySplitWs (s : String) : List String :=
  splitWsAux s.data []

/-- Python `str(v)` on a row scalar.  `str` on a float is modelled as the
integer part followed by `.0` for whole floats and the exact rational
rendering otherwise; the claims only ever stringify `str`/`int` cells. -/
def pyStr : PyVal → String
  | .vNone => "None"
  | .vInt n => toString n
  | .vFloat q => if q.den = 1 then toString q.num ++ ".0" else toString q
  | .vStr s => s

/-- Value of a digit character. -/
def digitVal (c : Char) : Nat := c.toNat - 48

/-- Read a run of decimal digits as a natural number. -/
def digitsToNat (l : List Char) : Nat :=
  l.foldl (fun a c => 10 * a + digitVal c) 0

/-- Python `float(str)` on a finite decimal literal: optional sign,
digits with an optional fractional part and an optional exponent,
surrounded by optional whitespace.  (`inf`/`nan` and digit-group
underscores are outside the repository's data and are not modelled;
they would not be exact rationals.)  Returns `none` when the text is
not a numeric literal, as `float` raises `ValueError` there. -/
def parsePyFloat (s : String) : Option Rat :=
  let cs := (pyStrip s).data
  let (sign, cs) : Int × List Char :=
    match cs with
    | '+' :: t => (1, t)
    | '-' :: t => (-1, t)
    | _ => (1, cs)
  let intPart := cs.takeWhile Char.isDigit
  let cs := cs.dropWhile Char.isDigit
  let (fracPart, cs) : List Char × List Char :=
    match cs with
    | '.' :: t => (t.takeWhile Char.isDigit, t.dropWhile Char.isDigit)
    | _ => ([], cs)
  if intPart = [] ∧ fracPart = [] then none else
  let fracLen := fracPart.length
  let mantNum : Int := sign * (digitsToNat intPart * 10 ^ fracLen + digitsToNat fracPart)
  let applyExp : List Char → Option Rat := fun rest =>
    match rest with
    | [] => some (mkRat mantNum (10 ^ fracLen))
    | 'e' :: t | 'E' :: t =>
      let (eneg, t) : Bool × List Char :=
        match t with
        | '+' :: u => (false, u)
        | '-' :: u => (true, u)
        | _ => (false, t)
      let edigits := t.takeWhile Char.isDigit
      let t := t.dropWhile Char.isDigit
      if edigits = [] ∨ t ≠ [] then none
      else
        let e := digitsToNat edigits
        if eneg then some (mkRat mantNum (10 ^ fracLen * 10 ^ e))
        else some (mkRat (mantNum * 10 ^ e) (10 ^ fracLen))
    | _ => none
  applyExp cs

/-- Python `float(v)` on a row scalar: numbers coerce, numeric strings
parse, `None` raises `TypeError` and non-numeric strings raise
`ValueError` — both modelled as `none`. -/
def pyFloat : PyVal → Option Rat
  | .vNone => none
  | .vInt n => some (n : Rat)
  | .vFloat q => some q
  | .vStr s => parsePyFloat s

example : pyFloat (.vStr "10") = some (mkRat 10 1) := by decide
example : pyFloat (.vStr "bad") = none := by decide
example : pyFloat (.vStr " 2.5 ") = some (mkRat 5 2) := by decide
example : pyFloat (.vStr "1e2") = some (mkRat 100 1) := by decide
example : pyFloat (.vStr "-3.25e-2") = some (mkRat (-13) 400) := by decide
example : pyFloat .vNone = none := by decide
example : pyFloat (.vInt 10) = some (mkRat 10 1) := by decide
example : pySplitWs "  DELETE  FROM t " = ["DELETE", "FROM", "t"] := by decide
example : pyUpper (pyStrip "  delete from t ") = "DELETE FROM T" := by decide
example : pySplitWs "" = [] := by decide

/-- A query result as returned by `DatabaseManager.execute_query`
(`db_manager.py`, the dict with keys `columns`, `rows`, `row_count`,
`truncated`). -/
structure QueryResult where
  columns : List String
  rows : List (List PyVal)
  row_count : Nat
  truncated : Bool
deriving DecidableEq, Repr

/-- Errors raised by `DatabaseManager.execute_query`:
`ValueError` for the write-operation gate (carrying the detected first
keyword) and `RuntimeError` wrapping any backend failure. -/
inductive DBError where
  | writeRejected (kw : String)
  | executionFailure (msg : String)
deriving DecidableEq, Repr

/-- The database cursor behaviour behind `execute_query`: given the SQL
text, either a backend error message, or the result-set metadata
(`cursor.description`, `none` when the statement yields no description)
together with the full row stream which `fetchmany` consumes from the
front.  This stands for the external driver; everything inside the
`try` block of `execute_query` that touches the driver flows through it. -/
def Backend : Type :=
  String → Except String (Option (List String) × List (List PyVal))

/-- A connection handle: an identity plus whether the underlying
database connection is still open (calling `.close()` on the object
clears the flag but the object itself remains referenced). -/
structure Conn where
  id : Nat
  isOpen : Bool
deriving DecidableEq, Repr

/-- The schema cache: introspection output, table name to row count and
column names (the parts of `_introspect_*` the claims observe; its
contents come from the external database). -/
abbrev SchemaModel : Type :=
  List (String × Nat × List String)

/-- The mutable fields of a `DatabaseManager` instance
(`self.connection`, `self.db_type`, `self.schema`). -/
structure DBState where
  connection : Option Conn
  db_type : Option String
  schema : Option SchemaModel
deriving DecidableEq, Repr

namespace DatabaseManager

/-- The fixed denylist in `execute_query` (`db_manager.py` line 333). -/
def dangerous_keywords : List String :=
  ["INSERT", "UPDATE", "DELETE", "DROP", "ALTER", "CREATE", "TRUNCATE", "REPLACE", "MERGE"]

/-- `first_word = sql_upper.split()[0] if sql_upper.split() else ""`
applied to `sql.strip().upper()` (`db_manager.py` lines 332–334). -/
def firstWord (sql : String) : String :=
  match pySplitWs (pyUpper (pyStrip sql)) with
  | [] => ""
  | w :: _ => w

/-- `DatabaseManager.execute_query` (`db_manager.py` lines 316–369):
the lexical write gate, then `cursor.execute`/`fetchmany(max_rows)`
through the backend, column names from the description for the three
known dialects (empty list otherwise), `row_count`/`truncated`
bookkeeping; any backend exception becomes `RuntimeError`. -/
def execute_query (backend : Backend) (db_type : Option String)
    (sql : String) (max_rows : Nat) : Except DBError QueryResult :=
  let first_word := firstWord sql
  if first_word ∈ dangerous_keywords then
    .error (.writeRejected first_word)
  else
    match backend sql with
    | .error e => .error (.executionFailure ("Query execution failed: " ++ e))
    | .ok (descr, allRows) =>
      let rows := allRows.take max_rows
      let columns :=
        if db_type = some "sqlite" then descr.getD []
        else if db_type = some "postgresql" then descr.getD []
        else if db_type = some "mysql" then descr.getD []
        else []
      let total_count := rows.length
      let truncated := decide (total_count ≥ max_rows)
      .ok { columns := columns, rows := rows, row_count := total_count, truncated := truncated }

/-- `DatabaseManager.close` (`db_manager.py` lines 393–399): when a
connection object is held, close it and null out all three fields;
otherwise do nothing. -/
def close (st : DBState) : DBState :=
  match st.connection with
  | some _ => { connection := none, db_type := none, schema := none }
  | none => st

/-- The best-effort `self.connection.close()` inside `connect`
(`db_manager.py` lines 40–44): the held object, if any, is closed in
place (errors swallowed); the field keeps referencing it. -/
def closeHandle : Option Conn → Option Conn
  | some c => some { c with isOpen := false }
  | none => none

/-- Exceptions the external driver layer can raise while opening a
connection (`ImportError` for a missing client library, anything else
for a failed connect call). -/
inductive PyExc where
  | importError (msg : String)
  | otherError (msg : String)
deriving DecidableEq, Repr

/-- Errors raised by `DatabaseManager.connect`: `ValueError` for an
unsupported dialect, re-raised `ImportError`, and `ConnectionError`
wrapping any other driver failure. -/
inductive ConnectErr where
  | unsupportedDialect (msg : String)
  | driverUnavailable (msg : String)
  | connectionFailure (msg : String)
deriving DecidableEq, Repr

/-- The external facilities `connect` relies on: the dialect-specific
driver call that opens a connection (for MySQL this includes
`_parse_mysql_uri` feeding the driver), and `_introspect_schema`, whose
queries run against the freshly opened external database. -/
structure ConnectEnv where
  openConn : String → String → Except PyExc Conn
  introspect : String → Conn → SchemaModel

/-- The normalization at the top of `connect`:
`db_type = db_type.lower().strip()` (`db_manager.py` line 36). -/
def normalizeDialect (s : String) : String :=
  pyStrip (pyLower s)

/-- Shared tail of the dialect branches of `connect`: open the new
connection through the driver (re-raising `ImportError`, wrapping other
failures in `ConnectionError`), store it, introspect and cache the
schema. -/
def connectOpen (env : ConnectEnv) (st : DBState) (d cs : String) :
    DBState × Except ConnectErr SchemaModel :=
  match env.openConn d cs with
  | .error (.importError m) => (st, .error (.driverUnavailable m))
  | .error (.otherError m) =>
      (st, .error (.connectionFailure ("Failed to connect to " ++ d ++ ": " ++ m)))
  | .ok c =>
      let st := { st with connection := some c }
      let sch := env.introspect d c
      ({ st with schema := some sch }, .ok sch)

/-- `DatabaseManager.connect` (`db_manager.py` lines 21–84): normalize
the dialect, overwrite `self.db_type`, best-effort-close any held
connection, then dispatch on the dialect — `sqlite`,
`postgresql`/`postgres` (tag rewritten to `postgresql`), `mysql`, or
raise `ValueError`.  Returns the post-call state together with the
returned schema or the raised error. -/
def connect (env : ConnectEnv) (st0 : DBState) (dbty cs : String) :
    DBState × Except ConnectErr SchemaModel :=
  let d := normalizeDialect dbty
  let st1 : DBState := { st0 with db_type := some d }
  let st2 : DBState := { st1 with connection := closeHandle st1.connection }
  if d = "sqlite" then
    connectOpen env st2 d cs
  else if d = "postgresql" ∨ d = "postgres" then
    connectOpen env { st2 with db_type := some "postgresql" } "postgresql" cs
  else if d = "mysql" then
    connectOpen env st2 d cs
  else
    (st2, .error (.unsupportedDialect
      ("Unsupported database type: '" ++ d ++ "'. Supported: sqlite, postgresql, mysql")))

end DatabaseManager

/-- A chart suggestion as consumed by `_build_chart_config`
(`chat_app.py`): a JSON dict whose keys may each be missing —
`suggestion.get(key, default)` is modelled by `Option.getD`. -/
structure Suggestion where
  chart_type : Option String := none
  x_column : Option String := none
  y_columns : Option (List String) := none
  title : Option String := none
deriving DecidableEq, Repr

/-- Modelled from the spec: `chart_generator.CHART_COLORS`
(`chart_generator.py` is not part of the sources provided; the spec
describes it only as "a fixed ordered palette").  An arbitrary fixed
non-empty list of fill colors stands in; every claim depends only on
its fixed order and length. -/
def CHART_COLORS : List String :=
  ["fill0", "fill1", "fill2", "fill3", "fill4", "fill5", "fill6"]

/-- Modelled from the spec: `chart_generator.CHART_BORDER_COLORS`, the
border-color palette paired with `CHART_COLORS` (same length, same
fixed order). -/
def CHART_BORDER_COLORS : List String :=
  ["border0", "border1", "border2", "border3", "border4", "border5", "border6"]

/-- The one exception `_build_chart_config` can raise on its own:
a Python `IndexError` from a list subscript. -/
inductive PyErr where
  | indexError
deriving DecidableEq, Repr

/-- Python `row[i]`: the element, or `IndexError` out of range. -/
def getAt (row : List PyVal) (i : Nat) : Except PyErr PyVal :=
  match row.get? i with
  | some v => .ok v
  | none => .error .indexError

/-- A Python `for`-loop appending `f a` for each element, with the
first raised exception aborting the loop. -/
def collectE (f : α → Except PyErr β) : List α → Except PyErr (List β)
  | [] => .ok []
  | a :: t =>
    match f a with
    | .error e => .error e
    | .ok b =>
      match collectE f t with
      | .error e => .error e
      | .ok bs => .ok (b :: bs)

/-- A Python `for i, a in enumerate(l)` loop, counting from `k`. -/
def collectIdxE (f : Nat → α → Except PyErr β) : Nat → List α → Except PyErr (List β)
  | _, [] => .ok []
  | k, a :: t =>
    match f k a with
    | .error e => .error e
    | .ok b =>
      match collectIdxE f (k + 1) t with
      | .error e => .error e
      | .ok bs => .ok (b :: bs)

/-- `x_idx = columns.index(x_col) if x_col in columns else 0`
(`chat_app.py` line 191). -/
def xIndex (columns : List String) (x_col : String) : Nat :=
  if x_col ∈ columns then columns.indexOf x_col else 0

/-- `y_idx = columns.index(yc) if yc in columns else (1 if len(columns) > 1 else 0)`
(`chat_app.py` line 196). -/
def yIndex (columns : List String) (yc : String) : Nat :=
  if yc ∈ columns then columns.indexOf yc
  else if columns.length > 1 then 1 else 0

/-- A dataset color entry: a single color for the whole dataset, or
(for proportional charts) a list of colors, one per data point. -/
inductive PyColors where
  | single (c : String)
  | many (cs : List String)
deriving DecidableEq, Repr

/-- One entry of the `datasets` list built by `_build_chart_config`
(`chat_app.py` lines 205–216); the `fill`/`tension`/`pointRadius` keys
exist only for `line` charts, hence `Option`. -/
structure Dataset where
  label : String
  data : List Rat
  backgroundColor : PyColors
  borderColor : PyColors
  borderWidth : Nat
  fill : Option Bool
  tension : Option Rat
  pointRadius : Option Nat
deriving DecidableEq, Repr

/-- The `options.scales` dict added for non-proportional charts
(`chat_app.py` lines 235–239). -/
structure Scales where
  xTicksColor : String
  xGridColor : String
  yTicksColor : String
  yGridColor : String
  yBeginAtZero : Bool
deriving DecidableEq, Repr

/-- The `options` dict of the Chart.js config (`chat_app.py`
lines 223–232, 235–241); absent keys are `none`. -/
structure ChartOptions where
  responsive : Bool
  maintainAspectRatio : Bool
  legendDisplay : Bool
  legendLabelsColor : String
  scales : Option Scales
  indexAxis : Option String
deriving DecidableEq, Repr

/-- The Chart.js `config` dict (`chat_app.py` lines 220–233). -/
structure ChartConfig where
  type : String
  labels : List String
  datasets : List Dataset
  options : ChartOptions
deriving DecidableEq, Repr

/-- The return value of `_build_chart_config` (`chat_app.py`
lines 243–247). -/
structure ChartOut where
  config : ChartConfig
  title : String
  chart_type : String
deriving DecidableEq, Repr

/-- `str(row[x_idx])` for one row of the labels comprehension
(`chat_app.py` line 192). -/
def labelOf (x_idx : Nat) (row : List PyVal) : Except PyErr String :=
  (getAt row x_idx).map pyStr

/-- One iteration of the dataset loop of `_build_chart_config`
(`chat_app.py` lines 195–216): resolve the y index, coerce each row's
value to float with `0` substituted on `TypeError`/`ValueError`
(an out-of-range subscript still raises `IndexError`), then attach the
palette colors — a single palette color at `(i % len(CHART_COLORS))`
for `bar`/`horizontalBar`/`line`, otherwise the palette sliced to the
number of values — and the `line`-only keys. -/
def datasetOf (columns : List String) (rows : List (List PyVal))
    (chart_type : String) (i : Nat) (yc : String) : Except PyErr Dataset :=
  match collectE
      (fun row => (getAt row (yIndex columns yc)).map (fun v => (pyFloat v).getD 0)) rows with
  | .error e => .error e
  | .ok values =>
    .ok { label := yc
          data := values
          backgroundColor :=
            if chart_type = "bar" ∨ chart_type = "horizontalBar" ∨ chart_type = "line"
            then .single (CHART_COLORS.getD (i % CHART_COLORS.length) "")
            else .many (CHART_COLORS.take values.length)
          borderColor :=
            if chart_type = "bar" ∨ chart_type = "horizontalBar" ∨ chart_type = "line"
            then .single (CHART_BORDER_COLORS.getD (i % CHART_BORDER_COLORS.length) "")
            else .many (CHART_BORDER_COLORS.take values.length)
          borderWidth := 2
          fill := if chart_type = "line" then some true else none
          tension := if chart_type = "line" then some (mkRat 2 5) else none
          pointRadius := if chart_type = "line" then some 4 else none }

/-- Assembling the `config` dict (`chat_app.py` lines 218–241):
`horizontalBar` is normalized to the `bar` renderer kind with
`indexAxis: "y"`; legend display is `len(datasets) > 1 or chart_type in
("pie", "doughnut")`; Cartesian `scales` are added exactly when the
chart type is not `pie`/`doughnut`. -/
def assembleConfig (chart_type : String) (labels : List String)
    (datasets : List Dataset) : ChartConfig :=
  { type := if chart_type = "horizontalBar" then "bar" else chart_type
    labels := labels
    datasets := datasets
    options :=
      { responsive := true
        maintainAspectRatio := false
        legendDisplay :=
          decide (datasets.length > 1) || (chart_type == "pie" || chart_type == "doughnut")
        legendLabelsColor := "#e2e8f0"
        scales :=
          if chart_type = "pie" ∨ chart_type = "doughnut" then none
          else some { xTicksColor := "#94a3b8", xGridColor := "rgba(148,163,184,0.1)",
                      yTicksColor := "#94a3b8", yGridColor := "rgba(148,163,184,0.1)",
                      yBeginAtZero := true }
        indexAxis := if chart_type = "horizontalBar" then some "y" else none } }

/-- `_build_chart_config(result, suggestion)` (`chat_app.py`
lines 182–247).  Python evaluates default arguments of `dict.get`
eagerly, so `suggestion.get("x_column", columns[0])` subscripts
`columns[0]` before anything else — on a zero-column result this
raises `IndexError` even when the suggestion carries an `x_column`
key; that eager subscript is the outermost match below. -/
def buildChartConfig (result : QueryResult) (sugg : Suggestion) :
    Except PyErr ChartOut :=
  match result.columns.get? 0 with
  | none => .error .indexError
  | some c0 =>
    match collectE (labelOf (xIndex result.columns (sugg.x_column.getD c0))) result.rows with
    | .error e => .error e
    | .ok labels =>
      match collectIdxE (datasetOf result.columns result.rows (sugg.chart_type.getD "bar")) 0
          (sugg.y_columns.getD ((result.columns.drop 1).take 1)) with
      | .error e => .error e
      | .ok datasets =>
        .ok { config := assembleConfig (sugg.chart_type.getD "bar") labels datasets
              title := sugg.title.getD ""
              chart_type := sugg.chart_type.getD "bar" }

/-! ## Helper lemmas -/

theorem collectE_ok_of_total {α β : Type} {f : α → Except PyErr β} :
    ∀ {l : List α}, (∀ a ∈ l, ∃ b, f a = .ok b) → ∃ bs, collectE f l = .ok bs
  | [], _ => ⟨[], rfl⟩
  | a :: t, h => by
    obtain ⟨b, hb⟩ := h a (List.mem_cons_self a t)
    obtain ⟨bs, hbs⟩ := collectE_ok_of_total (fun x hx => h x (List.mem_cons_of_mem a hx))
    exact ⟨b :: bs, by simp [collectE, hb, hbs]⟩

theorem collectE_ok_eq_map {α β : Type} {f : α → Except PyErr β} {g : α → β} :
    ∀ {l : List α} {bs : List β}, (∀ a ∈ l, ∀ b, f a = .ok b → b = g a) →
      collectE f l = .ok bs → bs = l.map g
  | [], bs, _, h => by
    simp only [collectE] at h
    cases h
    rfl
  | a :: t, bs, hg, h => by
    simp only [collectE] at h
    cases hfa : f a with
    | error e => rw [hfa] at h; cases h
    | ok b =>
      rw [hfa] at h
      cases hct : collectE f t with
      | error e => rw [hct] at h; cases h
      | ok cs =>
        rw [hct] at h
        cases h
        have hb := hg a (List.mem_cons_self a t) b hfa
        have hcs := collectE_ok_eq_map (fun x hx => hg x (List.mem_cons_of_mem a hx)) hct
        simp [hb, hcs]

theorem collectIdxE_ok_of_total {α β : Type} {f : Nat → α → Except PyErr β} :
    ∀ {l : List α}, (∀ a ∈ l, ∀ i, ∃ b, f i a = .ok b) →
      ∀ k, ∃ bs, collectIdxE f k l = .ok bs
  | [], _, _ => ⟨[], rfl⟩
  | a :: t, h, k => by
    obtain ⟨b, hb⟩ := h a (List.mem_cons_self a t) k
    obtain ⟨bs, hbs⟩ :=
      collectIdxE_ok_of_total (fun x hx => h x (List.mem_cons_of_mem a hx)) (k + 1)
    exact ⟨b :: bs, by simp [collectIdxE, hb, hbs]⟩

theorem collectIdxE_ok_length {α β : Type} {f : Nat → α → Except PyErr β} :
    ∀ {l : List α} {k : Nat} {bs : List β},
      collectIdxE f k l = .ok bs → bs.length = l.length
  | [], k, bs, h => by
    simp only [collectIdxE] at h
    cases h
    rfl
  | a :: t, k, bs, h => by
    simp only [collectIdxE] at h
    cases hfa : f k a with
    | error e => rw [hfa] at h; cases h
    | ok b =>
      rw [hfa] at h
      cases hct : collectIdxE f (k + 1) t with
      | error e => rw [hct] at h; cases h
      | ok cs =>
        rw [hct] at h
        cases h
        simp [collectIdxE_ok_length hct]

theorem collectIdxE_ok_get {α β : Type} {f : Nat → α → Except PyErr β} :
    ∀ {l : List α} {k : Nat} {bs : List β},
      collectIdxE f k l = .ok bs →
      ∀ i b, bs.get? i = some b → ∃ a, l.get? i = some a ∧ f (k + i) a = .ok b
  | [], k, bs, h => by
    simp only [collectIdxE] at h
    cases h
    intro i b hb
    cases hb
  | a :: t, k, bs, h => by
    simp only [collectIdxE] at h
    cases hfa : f k a with
    | error e => rw [hfa] at h; cases h
    | ok b0 =>
      rw [hfa] at h
      cases hct : collectIdxE f (k + 1) t with
      | error e => rw [hct] at h; cases h
      | ok cs =>
        rw [hct] at h
        cases h
        intro i b hb
        cases i with
        | zero =>
          cases hb
          exact ⟨a, rfl, hfa⟩
        | succ j =>
          obtain ⟨x, hx, hfx⟩ := collectIdxE_ok_get hct j b hb
          refine ⟨x, hx, ?_⟩
          have h1 : k + 1 + j = k + (j + 1) := by omega
          rw [← h1]
          exact hfx

theorem get?_ne_of_lt_indexOf {α : Type} [DecidableEq α] {a : α} :
    ∀ {l : List α} {j : Nat}, j < l.indexOf a → l.get? j ≠ some a
  | [], j, h => by simp [List.indexOf_nil] at h
  | b :: t, j, h => by
    by_cases hba : b = a
    · rw [List.indexOf_cons_eq t hba] at h
      exact absurd h (Nat.not_lt_zero j)
    · rw [List.indexOf_cons_ne t hba] at h
      cases j with
      | zero => simpa using hba
      | succ k => simpa using get?_ne_of_lt_indexOf (Nat.lt_of_succ_lt_succ h)

theorem xIndex_lt {columns : List String} (h : columns ≠ []) (x : String) :
    xIndex columns x < columns.length := by
  unfold xIndex
  split
  · exact List.indexOf_lt_length.mpr (by assumption)
  · exact List.length_pos.mpr h

theorem yIndex_lt {columns : List String} (h : columns ≠ []) (yc : String) :
    yIndex columns yc < columns.length := by
  unfold yIndex
  split
  · exact List.indexOf_lt_length.mpr (by assumption)
  · split
    · omega
    · exact List.length_pos.mpr h

theorem buildChartConfig_ok_inv {result : QueryResult} {sugg : Suggestion} {out : ChartOut}
    (h : buildChartConfig result sugg = .ok out) :
    ∃ c0 labels datasets,
      result.columns.get? 0 = some c0 ∧
      collectE (labelOf (xIndex result.columns (sugg.x_column.getD c0))) result.rows
        = .ok labels ∧
      collectIdxE (datasetOf result.columns result.rows (sugg.chart_type.getD "bar")) 0
        (sugg.y_columns.getD ((result.columns.drop 1).take 1)) = .ok datasets ∧
      out = { config := assembleConfig (sugg.chart_type.getD "bar") labels datasets,
              title := sugg.title.getD "", chart_type := sugg.chart_type.getD "bar" } := by
  unfold buildChartConfig at h
  cases hc : result.columns.get? 0 with
  | none => rw [hc] at h; cases h
  | some c0 =>
    rw [hc] at h
    simp only at h
    cases hl : collectE (labelOf (xIndex result.columns (sugg.x_column.getD c0)))
        result.rows with
    | error e => rw [hl] at h; cases h
    | ok labels =>
      rw [hl] at h
      cases hd : collectIdxE (datasetOf result.columns result.rows (sugg.chart_type.getD "bar")) 0
          (sugg.y_columns.getD ((result.columns.drop 1).take 1)) with
      | error e => rw [hd] at h; cases h
      | ok datasets =>
        rw [hd] at h
        cases h
        exact ⟨c0, labels, datasets, rfl, hl, rfl, rfl⟩

theorem datasetOf_ok_inv {columns : List String} {rows : List (List PyVal)}
    {ct : String} {i : Nat} {yc : String} {d : Dataset}
    (h : datasetOf columns rows ct i yc = .ok d) :
    d.label = yc ∧
    d.data = rows.map (fun row => (pyFloat (row.getD (yIndex columns yc) .vNone)).getD 0) ∧
    d.backgroundColor =
      (if ct = "bar" ∨ ct = "horizontalBar" ∨ ct = "line"
        then .single (CHART_COLORS.getD (i % CHART_COLORS.length) "")
        else .many (CHART_COLORS.take d.data.length)) ∧
    d.borderColor =
      (if ct = "bar" ∨ ct = "horizontalBar" ∨ ct = "line"
        then .single (CHART_BORDER_COLORS.getD (i % CHART_BORDER_COLORS.length) "")
        else .many (CHART_BORDER_COLORS.take d.data.length)) := by
  unfold datasetOf at h
  cases hv : collectE (fun row => (getAt row (yIndex columns yc)).map
      (fun v => (pyFloat v).getD 0)) rows with
  | error e => rw [hv] at h; cases h
  | ok values =>
    rw [hv] at h
    simp only at h
    have hvals : values = rows.map
        (fun row => (pyFloat (row.getD (yIndex columns yc) .vNone)).getD 0) := by
      refine collectE_ok_eq_map ?_ hv
      intro row _ b hb
      unfold getAt at hb
      cases hg : row.get? (yIndex columns yc) with
      | none => rw [hg] at hb; cases hb
      | some v =>
        rw [hg] at hb
        cases hb
        simp [List.getD_eq_getElem?_getD, ← List.get?_eq_getElem?, hg]
    cases h
    refine ⟨rfl, hvals, by simp [hvals], by simp [hvals]⟩

/-! ## Concrete fixtures used by witnesses and counterexamples -/

/-- A backend over a ten-row single-column table. -/
def tenRowBackend : Backend :=
  fun _ => .ok (some ["n"], (List.range 10).map (fun i => [PyVal.vInt i]))

/-- A backend over a three-row single-column table. -/
def threeRowBackend : Backend :=
  fun _ => .ok (some ["n"], (List.range 3).map (fun i => [PyVal.vInt i]))

/-- A backend that rejects every statement, as SQLite does for SQL it
cannot prepare. -/
def errBackend : Backend :=
  fun _ => .error "no such table: t"

/-- The result of fetching 5 of the ten rows. -/
def tenRowResult : QueryResult :=
  { columns := ["n"], rows := ((List.range 10).map (fun i => [PyVal.vInt i])).take 5,
    row_count := 5, truncated := true }

/-! ## C1 — the lexical write gate of `execute_query` -/

/-- C1: `execute_query` raises `WriteOperationRejected` (the
`ValueError`) exactly when the first whitespace-delimited token of the
trimmed, upper-cased query text is in the denylist; when the gate
fires the outcome is the same for every backend (no backend execution
is attempted); `DELETE FROM t` is rejected regardless of backend and
dialect, while `SELECT`/`WITH` statements pass the gate. -/
theorem execute_query_write_gate (backend b2 : Backend) (db_type : Option String)
    (sql : String) (max_rows : Nat) :
    ((∃ kw, DatabaseManager.execute_query backend db_type sql max_rows
        = .error (.writeRejected kw)) ↔
      DatabaseManager.firstWord sql ∈ DatabaseManager.dangerous_keywords)
    ∧ (DatabaseManager.firstWord sql ∈ DatabaseManager.dangerous_keywords →
        DatabaseManager.execute_query backend db_type sql max_rows =
          DatabaseManager.execute_query b2 db_type sql max_rows)
    ∧ DatabaseManager.execute_query backend db_type "DELETE FROM t" max_rows
        = .error (.writeRejected "DELETE")
    ∧ (∀ kw, DatabaseManager.execute_query backend db_type "SELECT * FROM t" max_rows
        ≠ .error (.writeRejected kw))
    ∧ (∀ kw, DatabaseManager.execute_query backend db_type
        "WITH c AS (SELECT 1) SELECT * FROM c" max_rows ≠ .error (.writeRejected kw)) := by
  have notRejected : ∀ (b : Backend) (s : String),
      DatabaseManager.firstWord s ∉ DatabaseManager.dangerous_keywords →
      ∀ kw, DatabaseManager.execute_query b db_type s max_rows
        ≠ .error (.writeRejected kw) := by
    intro b s hnm kw
    unfold DatabaseManager.execute_query
    rw [if_neg hnm]
    cases hb : b s with
    | error e => simp [hb]
    | ok pr => obtain ⟨descr, allRows⟩ := pr; simp [hb]
  refine ⟨⟨?_, ?_⟩, ?_, ?_, ?_, ?_⟩
  · rintro ⟨kw, hkw⟩
    by_contra hnm
    exact notRejected backend sql hnm kw hkw
  · intro hmem
    exact ⟨DatabaseManager.firstWord sql,
      by unfold DatabaseManager.execute_query; rw [if_pos hmem]⟩
  · intro hmem
    unfold DatabaseManager.execute_query
    rw [if_pos hmem, if_pos hmem]
  · have hmem : DatabaseManager.firstWord "DELETE FROM t"
        ∈ DatabaseManager.dangerous_keywords := by decide
    unfold DatabaseManager.execute_query
    rw [if_pos hmem]
    have : DatabaseManager.firstWord "DELETE FROM t" = "DELETE" := by decide
    rw [this]
  · exact notRejected backend "SELECT * FROM t" (by decide)
  · exact notRejected backend "WITH c AS (SELECT 1) SELECT * FROM c" (by decide)

/-- Witness for C1: at the concrete rejected statement `DELETE FROM t`
the call's outcome does not depend on the backend. -/
theorem execute_query_write_gate_witness :
    DatabaseManager.execute_query tenRowBackend (some "sqlite") "DELETE FROM t" 1000 =
      DatabaseManager.execute_query errBackend (some "sqlite") "DELETE FROM t" 1000 :=
  (execute_query_write_gate tenRowBackend errBackend (some "sqlite")
    "DELETE FROM t" 1000).2.1 (by decide)

/-! ## C2 — row cap, `row_count` and `truncated` -/

/-- C2: on every successful `execute_query(sql, max_rows)` call the
result holds at most `max_rows` rows, `row_count` equals the number of
returned rows, and `truncated` is true exactly when that number reached
the cap; with `max_rows = 5` a ten-row table yields exactly 5 rows with
`truncated = true` and a three-row table yields 3 rows with
`truncated = false`. -/
theorem execute_query_truncation (backend : Backend) (db_type : Option String)
    (sql : String) (max_rows : Nat) (r : QueryResult)
    (h : DatabaseManager.execute_query backend db_type sql max_rows = .ok r) :
    (r.row_count = r.rows.length ∧ r.rows.length ≤ max_rows ∧
      (r.truncated = true ↔ r.rows.length = max_rows))
    ∧ DatabaseManager.execute_query tenRowBackend (some "sqlite") "SELECT n FROM t" 5
        = .ok { columns := ["n"],
                rows := [[.vInt 0], [.vInt 1], [.vInt 2], [.vInt 3], [.vInt 4]],
                row_count := 5, truncated := true }
    ∧ DatabaseManager.execute_query threeRowBackend (some "sqlite") "SELECT n FROM t" 5
        = .ok { columns := ["n"], rows := [[.vInt 0], [.vInt 1], [.vInt 2]],
                row_count := 3, truncated := false } := by
  refine ⟨?_, by decide, by decide⟩
  unfold DatabaseManager.execute_query at h
  by_cases hmem : DatabaseManager.firstWord sql ∈ DatabaseManager.dangerous_keywords
  · rw [if_pos hmem] at h
    cases h
  · rw [if_neg hmem] at h
    cases hb : backend sql with
    | error e => rw [hb] at h; cases h
    | ok pr =>
      obtain ⟨descr, allRows⟩ := pr
      rw [hb] at h
      simp only at h
      cases h
      refine ⟨rfl, ?_, ?_⟩
      · simp
      · show decide ((allRows.take max_rows).length ≥ max_rows) = true ↔
          (allRows.take max_rows).length = max_rows
        have hle : (allRows.take max_rows).length ≤ max_rows := by simp
        constructor
        · intro ht
          have hge := of_decide_eq_true ht
          omega
        · intro he
          exact decide_eq_true (by omega)

/-- Witness for C2: the invariants at the concrete ten-row table
fetched with `max_rows = 5`. -/
theorem execute_query_truncation_witness :
    tenRowResult.row_count = tenRowResult.rows.length ∧
      tenRowResult.rows.length ≤ 5 ∧
      (tenRowResult.truncated = true ↔ tenRowResult.rows.length = 5) :=
  (execute_query_truncation tenRowBackend (some "sqlite") "SELECT n FROM t" 5
    tenRowResult (by decide)).1

/-! ## C10 — empty or whitespace-only SQL passes the gate -/

/-- C10: an empty or whitespace-only SQL string (its first token is the
empty string, which is not in the denylist) never triggers
`WriteOperationRejected`; it is submitted to the backend, whose
rejection surfaces as `ExecutionFailure` (`RuntimeError`) and whose
success comes back as an ordinary result. -/
theorem execute_query_blank_sql (backend : Backend) (db_type : Option String)
    (sql : String) (max_rows : Nat) (hblank : pyStrip sql = "") :
    (∀ kw, DatabaseManager.execute_query backend db_type sql max_rows
        ≠ .error (.writeRejected kw))
    ∧ (∀ msg, backend sql = .error msg →
        DatabaseManager.execute_query backend db_type sql max_rows
          = .error (.executionFailure ("Query execution failed: " ++ msg)))
    ∧ (∀ pr, backend sql = .ok pr →
        ∃ r, DatabaseManager.execute_query backend db_type sql max_rows = .ok r) := by
  have hfw : DatabaseManager.firstWord sql = "" := by
    unfold DatabaseManager.firstWord
    rw [hblank]
    decide
  have hnm : DatabaseManager.firstWord sql ∉ DatabaseManager.dangerous_keywords := by
    rw [hfw]; decide
  refine ⟨?_, ?_, ?_⟩
  · intro kw
    unfold DatabaseManager.execute_query
    rw [if_neg hnm]
    cases hb : backend sql with
    | error e => simp [hb]
    | ok pr => obtain ⟨descr, allRows⟩ := pr; simp [hb]
  · intro msg hmsg
    unfold DatabaseManager.execute_query
    rw [if_neg hnm, hmsg]
  · intro pr hpr
    obtain ⟨descr, allRows⟩ := pr
    exact ⟨_, by unfold DatabaseManager.execute_query; rw [if_neg hnm, hpr]⟩

/-- Witness for C10: the whitespace-only statement `"   "` against a
rejecting backend surfaces the backend error as `ExecutionFailure`. -/
theorem execute_query_blank_sql_witness :
    DatabaseManager.execute_query errBackend (some "sqlite") "   " 1000
      = .error (.executionFailure ("Query execution failed: " ++ "no such table: t")) :=
  (execute_query_blank_sql errBackend (some "sqlite") "   " 1000 (by decide)).2.1
    "no such table: t" rfl

/-! ## C3 — `connect` with an unsupported dialect -/

/-- A driver environment for concrete `connect` runs: every open
succeeds with a fresh handle and introspection sees one table. -/
def fixedEnv : DatabaseManager.ConnectEnv :=
  { openConn := fun _ _ => .ok { id := 2, isOpen := true },
    introspect := fun _ _ => [("t", 3, ["a", "b"])] }

/-- A manager state after a successful sqlite connect: an open handle,
the sqlite tag, and that connection's cached schema. -/
def sqliteState : DBState :=
  { connection := some { id := 1, isOpen := true },
    db_type := some "sqlite",
    schema := some [("t", 3, ["a", "b"])] }

/-- Counterexample to C3 as stated: calling `connect` with dialect
`oracle` on a previously connected manager raises the unsupported
dialect `ValueError`, but the state is not unchanged — the dialect tag
now reads `oracle` instead of the previous `sqlite`, and the prior
connection has already been closed even though the call failed. -/
theorem connect_unsupported_counterexample :
    (DatabaseManager.connect fixedEnv sqliteState "oracle" "db").2
        = .error (.unsupportedDialect
          "Unsupported database type: 'oracle'. Supported: sqlite, postgresql, mysql")
    ∧ (DatabaseManager.connect fixedEnv sqliteState "oracle" "db").1.db_type = some "oracle"
    ∧ sqliteState.db_type = some "sqlite"
    ∧ (DatabaseManager.connect fixedEnv sqliteState "oracle" "db").1.connection
        = some { id := 1, isOpen := false }
    ∧ sqliteState.connection = some { id := 1, isOpen := true }
    ∧ (some "oracle" : Option String) ≠ some "sqlite" := by
  refine ⟨by decide, by decide, by decide, by decide, by decide, by decide⟩

/-- C3 amended: when `connect(dialect, target)` is called with a
dialect whose normalization is outside
`{sqlite, postgresql, postgres, mysql}`, it fails with
`UnsupportedDialect`; the connection-handle field and the cached schema
keep their previous values, but the dialect tag has already been
overwritten with the normalized requested value and any held
connection has already been closed in place before the dialect check
(so the state is not fully unchanged, and the cached schema may be
stale relative to the tag). -/
theorem connect_unsupported_amended (env : DatabaseManager.ConnectEnv) (st : DBState)
    (dbty cs : String)
    (h : DatabaseManager.normalizeDialect dbty
      ∉ (["sqlite", "postgresql", "postgres", "mysql"] : List String)) :
    (DatabaseManager.connect env st dbty cs).2
        = .error (.unsupportedDialect
          ("Unsupported database type: '" ++ DatabaseManager.normalizeDialect dbty
            ++ "'. Supported: sqlite, postgresql, mysql"))
    ∧ (DatabaseManager.connect env st dbty cs).1.db_type
        = some (DatabaseManager.normalizeDialect dbty)
    ∧ (DatabaseManager.connect env st dbty cs).1.schema = st.schema
    ∧ (DatabaseManager.connect env st dbty cs).1.connection
        = DatabaseManager.closeHandle st.connection := by
  have h1 : DatabaseManager.normalizeDialect dbty ≠ "sqlite" := by
    intro hc; exact h (by rw [hc]; decide)
  have h2 : ¬(DatabaseManager.normalizeDialect dbty = "postgresql" ∨
      DatabaseManager.normalizeDialect dbty = "postgres") := by
    rintro (hc | hc) <;> exact h (by rw [hc]; decide)
  have h3 : DatabaseManager.normalizeDialect dbty ≠ "mysql" := by
    intro hc; exact h (by rw [hc]; decide)
  unfold DatabaseManager.connect
  rw [if_neg h1, if_neg h2, if_neg h3]
  exact ⟨rfl, rfl, rfl, rfl⟩

/-- Witness for C3 (amended): the concrete `oracle` run. -/
theorem connect_unsupported_amended_witness :
    (DatabaseManager.connect fixedEnv sqliteState "oracle" "db").1.schema
      = sqliteState.schema :=
  (connect_unsupported_amended fixedEnv sqliteState "oracle" "db" (by decide)).2.2.1

/-! ## C9 — `close` semantics and idempotence -/

/-- C9: `close()` on a manager holding a connection object releases it
and nulls the connection, dialect tag and cached schema; on a manager
holding no connection it is a no-op; consequently `close` composed
with `close` equals a single `close` on every state. -/
theorem close_idempotent (st : DBState) :
    (st.connection ≠ none →
      DatabaseManager.close st = { connection := none, db_type := none, schema := none })
    ∧ (st.connection = none → DatabaseManager.close st = st)
    ∧ DatabaseManager.close (DatabaseManager.close st) = DatabaseManager.close st := by
  obtain ⟨conn, dbty, sch⟩ := st
  cases conn with
  | none => exact ⟨fun hc => absurd rfl hc, fun _ => rfl, rfl⟩
  | some c => exact ⟨fun _ => rfl, fun hc => Option.noConfusion hc, rfl⟩

/-- Witness for C9: closing the concrete connected sqlite state clears
all three fields, and closing an unconnected state changes nothing. -/
theorem close_idempotent_witness :
    DatabaseManager.close sqliteState
        = { connection := none, db_type := none, schema := none }
    ∧ DatabaseManager.close { connection := none, db_type := some "sqlite", schema := none }
        = { connection := none, db_type := some "sqlite", schema := none } :=
  ⟨(close_idempotent sqliteState).1 (by decide),
    (close_idempotent { connection := none, db_type := some "sqlite", schema := none }).2.1 rfl⟩

/-! ## C4 — totality of the chart builder -/

/-- Counterexample to C4 as stated: on a result with zero columns the
builder raises `IndexError` — `suggestion.get("x_column", columns[0])`
evaluates its default argument eagerly — even though the claim
includes zero-column results among the inputs on which it never
raises.  The suggestion being empty or fully populated makes no
difference. -/
theorem buildChartConfig_counterexample :
    buildChartConfig { columns := [], rows := [], row_count := 0, truncated := false } {}
        = .error .indexError
    ∧ buildChartConfig { columns := [], rows := [], row_count := 0, truncated := false }
        { chart_type := some "bar", x_column := some "x", y_columns := some ["y"],
          title := some "t" }
        = .error .indexError := by
  exact ⟨by decide, by decide⟩

/-- C4 amended: for every result with at least one column whose rows
each carry at least one value per column (the shape every SQL result
set has), and every suggestion — missing keys, empty `y_columns`,
column names absent from the result included — the builder returns a
configuration and never raises. -/
theorem buildChartConfig_total (result : QueryResult) (sugg : Suggestion)
    (h1 : result.columns ≠ [])
    (h2 : ∀ row ∈ result.rows, result.columns.length ≤ row.length) :
    ∃ out, buildChartConfig result sugg = .ok out := by
  obtain ⟨c0, cols', hcols⟩ : ∃ c0 cols', result.columns = c0 :: cols' := by
    cases hcase : result.columns with
    | nil => exact absurd hcase h1
    | cons a t => exact ⟨a, t, rfl⟩
  have hc0 : result.columns.get? 0 = some c0 := by rw [hcols]; rfl
  have hlab : ∀ row ∈ result.rows, ∃ b,
      labelOf (xIndex result.columns (sugg.x_column.getD c0)) row = .ok b := by
    intro row hr
    have hlt : xIndex result.columns (sugg.x_column.getD c0) < row.length :=
      lt_of_lt_of_le (xIndex_lt h1 _) (h2 row hr)
    exact ⟨pyStr (row.get ⟨_, hlt⟩),
      by simp [labelOf, getAt, List.getElem?_eq_getElem hlt, Except.map]⟩
  obtain ⟨labels, hl⟩ := collectE_ok_of_total hlab
  have hds : ∀ yc ∈ sugg.y_columns.getD ((result.columns.drop 1).take 1), ∀ i, ∃ d,
      datasetOf result.columns result.rows (sugg.chart_type.getD "bar") i yc = .ok d := by
    intro yc _ i
    have hval : ∀ row ∈ result.rows, ∃ b,
        (getAt row (yIndex result.columns yc)).map (fun v => (pyFloat v).getD 0) = .ok b := by
      intro row hr
      have hlt : yIndex result.columns yc < row.length :=
        lt_of_lt_of_le (yIndex_lt h1 _) (h2 row hr)
      exact ⟨(pyFloat (row.get ⟨_, hlt⟩)).getD 0,
        by simp [getAt, List.getElem?_eq_getElem hlt, Except.map]⟩
    obtain ⟨values, hvv⟩ := collectE_ok_of_total hval
    exact ⟨_, by unfold datasetOf; rw [hvv]⟩
  obtain ⟨ds, hd⟩ := collectIdxE_ok_of_total hds 0
  refine ⟨{ config := assembleConfig (sugg.chart_type.getD "bar") labels ds,
            title := sugg.title.getD "", chart_type := sugg.chart_type.getD "bar" }, ?_⟩
  unfold buildChartConfig
  simp only [hc0, hl, hd]

/-- Witness for C4 (amended): a one-column, one-row result with an
empty suggestion produces a configuration. -/
theorem buildChartConfig_total_witness :
    ∃ out, buildChartConfig
      { columns := ["a"], rows := [[.vInt 1]], row_count := 1, truncated := false } {}
      = .ok out :=
  buildChartConfig_total _ {} (by decide) (by decide)

/-! ## Shared consequences of a successful build -/

theorem buildChartConfig_labels_eq {result : QueryResult} {sugg : Suggestion} {out : ChartOut}
    (h : buildChartConfig result sugg = .ok out) :
    ∃ c0, result.columns.get? 0 = some c0 ∧
      out.config.labels = result.rows.map (fun row =>
        pyStr (row.getD (xIndex result.columns (sugg.x_column.getD c0)) PyVal.vNone)) := by
  obtain ⟨c0, labels, ds, hc0, hl, hd, hout⟩ := buildChartConfig_ok_inv h
  refine ⟨c0, hc0, ?_⟩
  subst hout
  simp only [assembleConfig]
  refine collectE_ok_eq_map ?_ hl
  intro row _ b hb
  unfold labelOf getAt at hb
  cases hg : row.get? (xIndex result.columns (sugg.x_column.getD c0)) with
  | none => rw [hg] at hb; simp [Except.map] at hb
  | some v =>
    rw [hg] at hb
    simp only [Except.map] at hb
    cases hb
    simp [List.getD_eq_getElem?_getD, ← List.get?_eq_getElem?, hg]

theorem buildChartConfig_values_eq {result : QueryResult} {sugg : Suggestion} {out : ChartOut}
    (h : buildChartConfig result sugg = .ok out) :
    out.config.datasets.map (fun d => d.data)
      = (sugg.y_columns.getD ((result.columns.drop 1).take 1)).map (fun yc =>
          result.rows.map (fun row =>
            (pyFloat (row.getD (yIndex result.columns yc) PyVal.vNone)).getD 0)) := by
  obtain ⟨c0, labels, ds, hc0, hl, hd, hout⟩ := buildChartConfig_ok_inv h
  subst hout
  simp only [assembleConfig]
  apply List.ext
  intro n
  rw [List.get?_map, List.get?_map]
  cases hdn : ds.get? n with
  | none =>
    have hlen := collectIdxE_ok_length hd
    have h1 : ds.length ≤ n := List.get?_eq_none.mp hdn
    have h2 : (sugg.y_columns.getD ((result.columns.drop 1).take 1)).get? n = none :=
      List.get?_eq_none.mpr (by omega)
    rw [h2]
    rfl
  | some d =>
    obtain ⟨yc, hyc, hfd⟩ := collectIdxE_ok_get hd n d hdn
    rw [hyc]
    rw [Nat.zero_add] at hfd
    have hdata := (datasetOf_ok_inv hfd).2.1
    simp [hdata]

theorem buildChartConfig_dataset_fields {result : QueryResult} {sugg : Suggestion}
    {out : ChartOut} (h : buildChartConfig result sugg = .ok out) :
    ∀ i d, out.config.datasets.get? i = some d →
      ∃ yc, (sugg.y_columns.getD ((result.columns.drop 1).take 1)).get? i = some yc ∧
        datasetOf result.columns result.rows (sugg.chart_type.getD "bar") i yc = .ok d := by
  obtain ⟨c0, labels, ds, hc0, hl, hd, hout⟩ := buildChartConfig_ok_inv h
  subst hout
  intro i d hget
  simp only [assembleConfig] at hget
  obtain ⟨yc, hyc, hfd⟩ := collectIdxE_ok_get hd i d hget
  rw [Nat.zero_add] at hfd
  exact ⟨yc, hyc, hfd⟩

/-! ## C5 — x/y column index resolution -/

/-- C5: the builder's x index (`xIndex`, `chat_app.py` line 191) is the
first position of `suggestion.x_column` in `result.columns` when the
name occurs there, otherwise 0 (also when the suggestion has no
`x_column` key, since the default `columns[0]` sits at index 0); the y
index (`yIndex`, line 196) is likewise the first position of the
y-column name when present, otherwise 1 when the result has more than
one column and 0 otherwise; the labels of a successfully built
configuration are read through that x index. -/
theorem chart_index_resolution (columns : List String) (name : String) :
    (name ∈ columns →
      columns.get? (xIndex columns name) = some name ∧
      ∀ j, j < xIndex columns name → columns.get? j ≠ some name)
    ∧ (name ∉ columns → xIndex columns name = 0)
    ∧ (name ∈ columns → yIndex columns name = xIndex columns name)
    ∧ (name ∉ columns → yIndex columns name = if columns.length > 1 then 1 else 0)
    ∧ (∀ result sugg out, buildChartConfig result sugg = .ok out →
        ∃ c0, result.columns.get? 0 = some c0 ∧
          out.config.labels = result.rows.map (fun row =>
            pyStr (row.getD (xIndex result.columns (sugg.x_column.getD c0)) PyVal.vNone))) := by
  refine ⟨?_, ?_, ?_, ?_, ?_⟩
  · intro hm
    constructor
    · unfold xIndex
      rw [if_pos hm]
      exact List.indexOf_get? hm
    · intro j hj
      unfold xIndex at hj
      rw [if_pos hm] at hj
      exact get?_ne_of_lt_indexOf hj
  · intro hnm
    unfold xIndex
    rw [if_neg hnm]
  · intro hm
    unfold yIndex xIndex
    rw [if_pos hm, if_pos hm]
  · intro hnm
    unfold yIndex
    rw [if_neg hnm]
  · intro result sugg out h
    exact buildChartConfig_labels_eq h

/-- Witness for C5: in columns `["a", "b", "b"]` the name `"b"`
resolves to its first occurrence, index 1; the absent name `"z"`
resolves to the x fallback 0 and the y fallback 1. -/
theorem chart_index_resolution_witness :
    (["a", "b", "b"] : List String).get? (xIndex ["a", "b", "b"] "b") = some "b"
    ∧ xIndex ["a", "b", "b"] "z" = 0
    ∧ yIndex ["a", "b", "b"] "z" = 1 :=
  ⟨((chart_index_resolution ["a", "b", "b"] "b").1 (by decide)).1,
    (chart_index_resolution ["a", "b", "b"] "z").2.1 (by decide),
    by
      rw [(chart_index_resolution ["a", "b", "b"] "z").2.2.2.1 (by decide)]
      decide⟩

/-! ## C6 — labels and coerced dataset values -/

/-- C6: in a successfully built configuration the label sequence is the
string representation of each row's x-indexed value in original row
order, and each dataset's values are, per row in order, the y-indexed
value coerced to a float with `0` substituted when coercion fails
(non-numeric text, null); on the spec's example rows
`[["east",10],["west","bad"]]` with y column `total` this yields labels
`["east","west"]` and values `[10.0, 0.0]`. -/
theorem chart_labels_values (result : QueryResult) (sugg : Suggestion) (out : ChartOut)
    (h : buildChartConfig result sugg = .ok out) :
    (∃ c0, result.columns.get? 0 = some c0 ∧
      out.config.labels = result.rows.map (fun row =>
        pyStr (row.getD (xIndex result.columns (sugg.x_column.getD c0)) PyVal.vNone)))
    ∧ out.config.datasets.map (fun d => d.data)
        = (sugg.y_columns.getD ((result.columns.drop 1).take 1)).map (fun yc =>
            result.rows.map (fun row =>
              (pyFloat (row.getD (yIndex result.columns yc) PyVal.vNone)).getD 0))
    ∧ (buildChartConfig
        { columns := ["region", "total"],
          rows := [[.vStr "east", .vInt 10], [.vStr "west", .vStr "bad"]],
          row_count := 2, truncated := false }
        { chart_type := some "bar", x_column := some "region",
          y_columns := some ["total"] }).map
        (fun o => (o.config.labels, o.config.datasets.map (fun d => d.data)))
        = .ok (["east", "west"], [[mkRat 10 1, 0]]) :=
  ⟨buildChartConfig_labels_eq h, buildChartConfig_values_eq h, by decide⟩

/-! ## Concrete chart fixtures -/

/-- The spec's example result: `columns ["region","total"]`,
rows `[["east",10],["west","bad"]]`. -/
def barExampleResult : QueryResult :=
  { columns := ["region", "total"],
    rows := [[.vStr "east", .vInt 10], [.vStr "west", .vStr "bad"]],
    row_count := 2, truncated := false }

/-- The spec's example suggestion for a bar chart. -/
def barExampleSugg : Suggestion :=
  { chart_type := some "bar", x_column := some "region", y_columns := some ["total"] }

/-- The same suggestion with kind `horizontalBar`. -/
def hbarExampleSugg : Suggestion :=
  { chart_type := some "horizontalBar", x_column := some "region",
    y_columns := some ["total"] }

/-- The dataset the builder produces for the example bar chart. -/
def barExampleDataset : Dataset :=
  { label := "total", data := [mkRat 10 1, mkRat 0 1],
    backgroundColor := .single "fill0", borderColor := .single "border0",
    borderWidth := 2, fill := none, tension := none, pointRadius := none }

/-- The full configuration the builder produces for the example bar
chart. -/
def barExampleOut : ChartOut :=
  { config :=
      { type := "bar", labels := ["east", "west"], datasets := [barExampleDataset],
        options :=
          { responsive := true, maintainAspectRatio := false,
            legendDisplay := false, legendLabelsColor := "#e2e8f0",
            scales := some { xTicksColor := "#94a3b8",
                             xGridColor := "rgba(148,163,184,0.1)",
                             yTicksColor := "#94a3b8",
                             yGridColor := "rgba(148,163,184,0.1)",
                             yBeginAtZero := true },
            indexAxis := none } },
    title := "", chart_type := "bar" }

/-- The full configuration the builder produces for the example
horizontal-bar chart. -/
def hbarExampleOut : ChartOut :=
  { config :=
      { type := "bar", labels := ["east", "west"], datasets := [barExampleDataset],
        options :=
          { responsive := true, maintainAspectRatio := false,
            legendDisplay := false, legendLabelsColor := "#e2e8f0",
            scales := some { xTicksColor := "#94a3b8",
                             xGridColor := "rgba(148,163,184,0.1)",
                             yTicksColor := "#94a3b8",
                             yGridColor := "rgba(148,163,184,0.1)",
                             yBeginAtZero := true },
            indexAxis := some "y" } },
    title := "", chart_type := "horizontalBar" }

/-- Witness for C6: the build of the example succeeds with exactly the
expected configuration, whose dataset values are the coerced y cells of
each row in order. -/
theorem chart_labels_values_witness :
    buildChartConfig barExampleResult barExampleSugg = .ok barExampleOut ∧
    barExampleOut.config.datasets.map (fun d => d.data)
      = (barExampleSugg.y_columns.getD ((barExampleResult.columns.drop 1).take 1)).map
          (fun yc => barExampleResult.rows.map (fun row =>
            (pyFloat (row.getD (yIndex barExampleResult.columns yc) PyVal.vNone)).getD 0)) :=
  ⟨by decide,
    (chart_labels_values barExampleResult barExampleSugg barExampleOut (by decide)).2.1⟩

/-! ## C7 — palette assignment -/

/-- Counterexample to C7 as stated: a `scatter` suggestion produces a
dataset whose color is the palette sliced to the number of data points,
not the single per-dataset palette color the claim assigns to scatter —
the single-color branch covers only `bar`, `horizontalBar` and `line`. -/
theorem chart_dataset_colors_counterexample :
    (buildChartConfig
        { columns := ["x", "y"], rows := [[.vInt 1, .vInt 2]],
          row_count := 1, truncated := false }
        { chart_type := some "scatter", x_column := some "x",
          y_columns := some ["y"] }).map
        (fun o => o.config.datasets.map (fun d => d.backgroundColor))
      = .ok [.many (CHART_COLORS.take 1)]
    ∧ ∀ c, PyColors.many (CHART_COLORS.take 1) ≠ PyColors.single c :=
  ⟨by decide, fun _ h => PyColors.noConfusion h⟩

/-- C7 amended: every dataset of a built configuration draws its colors
deterministically from the fixed palettes at `(dataset index) mod
(palette length)`; `bar`, `horizontalBar` and `line` datasets get that
single per-dataset color, while every other chart kind — `pie`,
`doughnut`, and also `scatter` or any unrecognized kind — gets one
color per data point by slicing the palette to the number of values. -/
theorem chart_dataset_colors (result : QueryResult) (sugg : Suggestion) (out : ChartOut)
    (h : buildChartConfig result sugg = .ok out) :
    ∀ i d, out.config.datasets.get? i = some d →
      ((sugg.chart_type.getD "bar" = "bar" ∨ sugg.chart_type.getD "bar" = "horizontalBar"
          ∨ sugg.chart_type.getD "bar" = "line") →
        d.backgroundColor = .single (CHART_COLORS.getD (i % CHART_COLORS.length) "")
        ∧ d.borderColor
          = .single (CHART_BORDER_COLORS.getD (i % CHART_BORDER_COLORS.length) ""))
      ∧ (¬(sugg.chart_type.getD "bar" = "bar" ∨ sugg.chart_type.getD "bar" = "horizontalBar"
          ∨ sugg.chart_type.getD "bar" = "line") →
        d.backgroundColor = .many (CHART_COLORS.take d.data.length)
        ∧ d.borderColor = .many (CHART_BORDER_COLORS.take d.data.length)) := by
  intro i d hget
  obtain ⟨yc, hyc, hfd⟩ := buildChartConfig_dataset_fields h i d hget
  obtain ⟨_, _, hbg, hbc⟩ := datasetOf_ok_inv hfd
  constructor
  · intro hcond
    exact ⟨by rw [hbg, if_pos hcond], by rw [hbc, if_pos hcond]⟩
  · intro hcond
    exact ⟨by rw [hbg, if_neg hcond], by rw [hbc, if_neg hcond]⟩

/-- Witness for C7 (amended): dataset 0 of the example bar chart
carries the single palette color at index `0 mod len`. -/
theorem chart_dataset_colors_witness :
    barExampleDataset.backgroundColor
      = .single (CHART_COLORS.getD (0 % CHART_COLORS.length) "") :=
  ((chart_dataset_colors barExampleResult barExampleSugg barExampleOut (by decide)) 0
    barExampleDataset (by decide)).1 (by decide) |>.1

/-! ## C8 — kind normalization, legend and axes -/

/-- C8: a `horizontalBar` suggestion builds a configuration of renderer
kind `bar` with the axis-orientation flag `indexAxis = "y"`; the legend
is displayed exactly when there is more than one dataset or the
suggested kind is `pie`/`doughnut`; the Cartesian axis/grid scale
options are present exactly when the suggested kind is neither `pie`
nor `doughnut`. -/
theorem chart_options_flags (result : QueryResult) (sugg : Suggestion) (out : ChartOut)
    (h : buildChartConfig result sugg = .ok out) :
    (sugg.chart_type.getD "bar" = "horizontalBar" →
      out.config.type = "bar" ∧ out.config.options.indexAxis = some "y")
    ∧ (out.config.options.legendDisplay = true ↔
        (1 < out.config.datasets.length ∨ sugg.chart_type.getD "bar" = "pie"
          ∨ sugg.chart_type.getD "bar" = "doughnut"))
    ∧ (out.config.options.scales ≠ none ↔
        (sugg.chart_type.getD "bar" ≠ "pie" ∧ sugg.chart_type.getD "bar" ≠ "doughnut")) := by
  obtain ⟨c0, labels, ds, hc0, hl, hd, hout⟩ := buildChartConfig_ok_inv h
  subst hout
  simp only [assembleConfig]
  refine ⟨?_, ?_, ?_⟩
  · intro hct
    rw [hct]
    exact ⟨by simp, by simp⟩
  · simp [Bool.or_eq_true, decide_eq_true_eq, beq_iff_eq, Nat.lt_iff_add_one_le]
  · by_cases hpd : sugg.chart_type.getD "bar" = "pie" ∨ sugg.chart_type.getD "bar" = "doughnut"
    · rw [if_pos hpd]
      simp only [ne_eq, not_true_eq_false, false_iff, not_and]
      rcases hpd with hp | hdg
      · intro hc; exact absurd hp hc
      · intro _ hc; exact hc hdg
    · rw [if_neg hpd]
      push_neg at hpd
      simp [hpd.1, hpd.2]

/-- Witness for C8: the example horizontal-bar build is normalized to
kind `bar` with `indexAxis = "y"`. -/
theorem chart_options_flags_witness :
    hbarExampleOut.config.type = "bar"
    ∧ hbarExampleOut.config.options.indexAxis = some "y" :=
  (chart_options_flags barExampleResult hbarExampleSugg hbarExampleOut (by decide)).1
    (by decide)
